import Mathlib

/-!
Verification of the InventoryFlow authentication subsystem.

Shallow embedding of the TypeScript sources:
  src/services/user.service.ts   (UserService: login, registration, refresh, lookups)
  src/middleware/auth.middleware.ts (AuthMiddleware: requireAuth, requirePermission)
  src/utils/jwt.ts               (token issuance and verification, parseExpiry)
  src/config/env.ts              (environment schema)
  src/errors/AppError.ts         (error taxonomy)

Modelling conventions:
  - The Prisma user table is a `List User`; `findFirst` is `List.find?` with the
    translated where-clause.  A possible rejection of the persistence call is the
    explicit `dbFail` flag (the service wraps those calls in try/catch).
  - JWTs are symbolic: a `SignedToken` is the payload plus the secret it was
    signed with; signature verification succeeds exactly when the verifying
    secret equals the signing secret (standard symbolic model of an HMAC).
  - The wire form of a token is abstracted by `Ctx.decode`, mapping a compact
    serialization to the structured token (jose `jwtVerify` parses it; a string
    that is not a well-formed JWS yields a `malformed` error).
  - Messages thrown by the external jose library are the parameter
    `Ctx.joseMsg`; the middleware logic under test only inspects them through
    `String.includes`, which is modelled by `includesSubstr`.
  - Argon2 hashing and verification (external library) are the `HashOracle`
    parameter; the services treat them as opaque boolean and string producers.
  - Invocations of password hashing / verification are recorded in an explicit
    `AuthEvent` trace so that never-invoked claims are statable.
-/

deriving instance DecidableEq for Except

namespace InventoryFlow

/-! String primitives.  The JS string operations the sources use are modelled
on the character lists underlying Lean strings, with plain structural
recursion, so that every definition evaluates by kernel reduction. -/

/-- JS `String.prototype.startsWith`. -/
def strStartsWith (s pre : String) : Bool :=
  pre.data.isPrefixOf s.data

/-- JS `String.prototype.substring(n)` / `slice(n)` for a forward index. -/
def strDrop (s : String) (n : Nat) : String :=
  String.mk (s.data.drop n)

/-- JS `String.prototype.trim` (ASCII whitespace). -/
def strTrim (s : String) : String :=
  String.mk (((s.data.dropWhile Char.isWhitespace).reverse.dropWhile
    Char.isWhitespace).reverse)

/-- JS `String.prototype.length` (code units; all modelled text is ASCII). -/
def strLength (s : String) : Nat :=
  s.data.length

/-- Lowercase an ASCII character, JS `toLowerCase` restricted to ASCII. -/
def asciiToLower (c : Char) : Char :=
  if 65 ≤ c.toNat ∧ c.toNat ≤ 90 then Char.ofNat (c.toNat + 32) else c

/-- JS `String.prototype.toLowerCase` on ASCII strings. -/
def strToLower (s : String) : String :=
  String.mk (s.data.map asciiToLower)

/-- Replace the first occurrence of `pat` in `cs` by `rep` (helper for
`jsReplaceFirst`). -/
def replaceFirstChars : List Char → List Char → List Char → List Char
  | [], pat, rep => if pat.isEmpty then rep else []
  | c :: rest, pat, rep =>
    if pat.isPrefixOf (c :: rest) then rep ++ (c :: rest).drop pat.length
    else c :: replaceFirstChars rest pat rep

/-- Does `cs` contain `sub` as a contiguous run? -/
def charsContains : List Char → List Char → Bool
  | [], sub => sub.isEmpty
  | c :: rest, sub => sub.isPrefixOf (c :: rest) || charsContains rest sub

/-- Error mirror of src/errors/AppError.ts: every AppError subclass carries a
message and an HTTP status code.  A plain JS `Error` is represented with status
500, the status the error middleware assigns to non-AppError throwables. -/
structure AppErrorE where
  message : String
  statusCode : Nat
  deriving DecidableEq, Repr

/-- `new UnauthorizedError(msg)` : statusCode 401. -/
def unauthorizedError (msg : String) : AppErrorE := { message := msg, statusCode := 401 }

/-- `new ConflictError(msg)` : statusCode 409. -/
def conflictError (msg : String) : AppErrorE := { message := msg, statusCode := 409 }

/-- `new AppError(msg)` with the default status: statusCode 500. -/
def appErrorDefault (msg : String) : AppErrorE := { message := msg, statusCode := 500 }

/-- One row of the RolePermission join table, as eagerly loaded under
`include: { role: { include: { permissions: true } } }`. -/
structure RolePermission where
  permission : String
  deriving DecidableEq, Repr

/-- A role row with its eagerly loaded permission set. -/
structure Role where
  id : String
  name : String
  permissions : List RolePermission
  deriving DecidableEq, Repr

/-- A user row with its eagerly loaded role.  Timestamps (createdAt, updatedAt,
lastLoginAt) are not consulted by any verified operation and are omitted. -/
structure User where
  id : String
  email : String
  username : String
  firstName : String
  lastName : String
  password : String
  isActive : Bool
  roleId : String
  role : Role
  deriving DecidableEq, Repr

/-- The user projection returned to clients: destructuring
`const { password, ...userWithoutPassword } = user`. -/
structure UserWithoutPassword where
  id : String
  email : String
  username : String
  firstName : String
  lastName : String
  isActive : Bool
  roleId : String
  role : Role
  deriving DecidableEq, Repr

/-- Strip the password hash from a user record. -/
def stripPassword (u : User) : UserWithoutPassword :=
  { id := u.id, email := u.email, username := u.username, firstName := u.firstName,
    lastName := u.lastName, isActive := u.isActive, roleId := u.roleId, role := u.role }

/-- Login request body after schema validation (src/validators/auth.validators.ts). -/
structure LoginDTO where
  identifier : String
  password : String
  deriving DecidableEq, Repr

/-- Registration request body after schema validation. -/
structure RegisterDTO where
  email : String
  firstName : String
  lastName : String
  password : String
  roleId : String
  username : String
  deriving DecidableEq, Repr

/-- Raw process environment restricted to the variables the verified claims
consult.  `none` models an unset variable.  (DATABASE_URL, PORT and
ALLOWED_ORIGINS are validated independently of these fields and are outside the
scope of every claim.) -/
structure RawEnv where
  ACCESS_TOKEN_EXPIRY : Option String
  REFRESH_TOKEN_EXPIRY : Option String
  JWT_ACCESS_SECRET : Option String
  JWT_REFRESH_SECRET : Option String
  NODE_ENV : Option String
  deriving DecidableEq, Repr

/-- Parsed environment (the `env` export of src/config/env.ts). -/
structure Env where
  ACCESS_TOKEN_EXPIRY : String
  REFRESH_TOKEN_EXPIRY : String
  JWT_ACCESS_SECRET : String
  JWT_REFRESH_SECRET : String
  NODE_ENV : String
  deriving DecidableEq, Repr

/-- The zod schema of src/config/env.ts on the modelled fields:
ACCESS_TOKEN_EXPIRY and REFRESH_TOKEN_EXPIRY are `z.string()` with defaults
"15m" and "7d" and no format constraint; the two secrets are required strings;
NODE_ENV is the enum {development, production} defaulting to development.
A failure models the `process.exit(1)` taken at startup on invalid input. -/
def envSchemaParse (raw : RawEnv) : Except String Env :=
  match raw.JWT_ACCESS_SECRET, raw.JWT_REFRESH_SECRET with
  | some a, some r =>
    match raw.NODE_ENV with
    | some n =>
      if n = "development" || n = "production" then
        .ok { ACCESS_TOKEN_EXPIRY := raw.ACCESS_TOKEN_EXPIRY.getD "15m",
              REFRESH_TOKEN_EXPIRY := raw.REFRESH_TOKEN_EXPIRY.getD "7d",
              JWT_ACCESS_SECRET := a, JWT_REFRESH_SECRET := r, NODE_ENV := n }
      else .error "Invalid environment variables"
    | none =>
      .ok { ACCESS_TOKEN_EXPIRY := raw.ACCESS_TOKEN_EXPIRY.getD "15m",
            REFRESH_TOKEN_EXPIRY := raw.REFRESH_TOKEN_EXPIRY.getD "7d",
            JWT_ACCESS_SECRET := a, JWT_REFRESH_SECRET := r, NODE_ENV := "development" }
  | _, _ => .error "Invalid environment variables"

/-- JS `String.prototype.slice(-1)` on ASCII strings: the last character, or
the empty string when the input is empty. -/
def strLast (s : String) : String :=
  String.mk (s.data.drop (s.data.length - 1))

/-- JS `String.prototype.slice(0, -1)` on ASCII strings: everything except the
last character. -/
def strDropLast (s : String) : String :=
  String.mk (s.data.take (s.data.length - 1))

/-- JS `parseInt(s)` restricted to decimal inputs: skip leading whitespace,
read an optional sign, then the longest leading run of decimal digits; `none`
models NaN (no digits).  Hexadecimal prefixes are not modelled (no configured
expiry string uses them and no claim depends on them). -/
def jsParseInt (s : String) : Option Int :=
  let t := s.data.dropWhile Char.isWhitespace
  let signRest : Int × List Char :=
    match t with
    | [] => (1, t)
    | c :: rest =>
      if c == '-' then (-1, rest) else if c == '+' then (1, rest) else (1, t)
  let ds := signRest.2.takeWhile Char.isDigit
  if ds.isEmpty then none
  else some (signRest.1 * (ds.foldl (fun n c => n * 10 + (c.toNat - 48)) 0 : Nat))

/-- JS `String.prototype.includes` (substring containment). -/
def includesSubstr (s sub : String) : Bool :=
  charsContains s.data sub.data

/-- JS `String.prototype.replace(pat, rep)` with a string pattern: only the
first occurrence is replaced. -/
def jsReplaceFirst (s pat rep : String) : String :=
  String.mk (replaceFirstChars s.data pat.data rep.data)

/-- `parseExpiry` of src/utils/jwt.ts: last character selects the unit, the
rest is fed to `parseInt`.  The `Option Int` propagates parseInt NaN; an
unsupported unit throws `AppError` with the format message. -/
def parseExpiry (expiry : String) : Except AppErrorE (Option Int) :=
  let unit := strLast expiry
  let value := jsParseInt (strDropLast expiry)
  if unit = "d" then .ok (value.map (fun v => v * 60 * 60 * 24))
  else if unit = "h" then .ok (value.map (fun v => v * 60 * 60))
  else if unit = "m" then .ok (value.map (fun v => v * 60))
  else if unit = "s" then .ok value
  else .error (appErrorDefault ("Unsupported expiry format: " ++ expiry))

/-- JWT payload as built by SignJWT and read back by jwtVerify.  Absent claims
are `none`; an `exp` of `none` also covers the NaN case (jose skips the expiry
check when comparison with NaN is false, matching JS semantics). -/
structure Payload where
  userId : Option String := none
  email : Option String := none
  role : Option String := none
  jti : Option String := none
  type : Option String := none
  iat : Option Int := none
  exp : Option Int := none
  iss : Option String := none
  aud : Option String := none
  deriving DecidableEq, Repr

/-- Symbolic signed JWT: the payload together with the secret that produced the
HMAC-SHA256 signature. -/
structure SignedToken where
  payload : Payload
  key : String
  deriving DecidableEq, Repr

/-- Failure modes of jose `jwtVerify`. -/
inductive JoseError where
  | malformed
  | signatureInvalid
  | claimInvalid
  | expired
  deriving DecidableEq, Repr

/-- jose `jwtVerify(token, key, { audience, issuer })` in the symbolic model:
signature first, then issuer, audience, and expiry against the current time in
seconds (clock tolerance zero; `exp <= now` is expired). -/
def jwtVerify (token : SignedToken) (key iss aud : String) (now : Int) :
    Except JoseError Payload :=
  if token.key ≠ key then .error .signatureInvalid
  else if token.payload.iss ≠ some iss then .error .claimInvalid
  else if token.payload.aud ≠ some aud then .error .claimInvalid
  else
    match token.payload.exp with
    | none => .ok token.payload
    | some e => if e ≤ now then .error .expired else .ok token.payload

/-- Ambient context: the parsed environment, the message text of each jose
error (external library detail, kept abstract), and the parsing of a compact
JWS string into a structured token (jose internal, kept abstract). -/
structure Ctx where
  env : Env
  joseMsg : JoseError → String
  decode : String → Option SignedToken

/-- JS truthiness of an optional string claim: missing and empty are falsy. -/
def truthy : Option String → Bool
  | none => false
  | some s => !(s == "")

/-- `generateAccessToken(userId, email, role)` of src/utils/jwt.ts at a fixed
current time `now` (seconds) and a fixed fresh `jti`.  The surrounding
try/catch converts the `parseExpiry` AppError into a plain
`Error("Failed to generate access token")` (status 500 once it reaches the
error middleware). -/
def generateAccessToken (env : Env) (now : Int) (jti userId email role : String) :
    Except AppErrorE SignedToken :=
  match parseExpiry env.ACCESS_TOKEN_EXPIRY with
  | .error _ => .error (appErrorDefault "Failed to generate access token")
  | .ok d =>
    .ok { payload := { userId := some userId, email := some email, role := some role,
                       jti := some jti, type := some "access",
                       iat := some now, exp := d.map (fun k => now + k),
                       iss := some "InventoryFlow", aud := some "InventoryFlow-users" },
          key := env.JWT_ACCESS_SECRET }

/-- `generateRefreshToken(userId)`: minimal claims, refresh secret. -/
def generateRefreshToken (env : Env) (now : Int) (jti userId : String) :
    Except AppErrorE SignedToken :=
  match parseExpiry env.REFRESH_TOKEN_EXPIRY with
  | .error _ => .error (appErrorDefault "Failed to generate refresh token")
  | .ok d =>
    .ok { payload := { userId := some userId, jti := some jti, type := some "refresh",
                       iat := some now, exp := d.map (fun k => now + k),
                       iss := some "InventoryFlow", aud := some "InventoryFlow-users" },
          key := env.JWT_REFRESH_SECRET }

/-- Claims returned by `verifyAccessToken`. -/
structure AccessClaims where
  userId : String
  email : String
  role : Option String
  iat : Option Int
  exp : Option Int
  deriving DecidableEq, Repr

/-- Claims returned by `verifyRefreshToken`. -/
structure RefreshClaims where
  userId : String
  iat : Option Int
  exp : Option Int
  deriving DecidableEq, Repr

/-- Shared body of `verifyAccessToken`: the required-claim checks on a
successful jwtVerify, and the catch block mapping jose failures through
`error.message.includes("expired")` and `.includes("signature")` to
UnauthorizedError values. -/
def verifyAccessTokenCore (ctx : Ctx) (r : Except JoseError Payload) :
    Except AppErrorE AccessClaims :=
  match r with
  | .ok payload =>
    if !(truthy payload.userId) || !(truthy payload.email) || payload.type ≠ some "access" then
      .error (unauthorizedError "Invalid access token")
    else
      .ok { userId := payload.userId.getD "", email := payload.email.getD "",
            role := payload.role, iat := payload.iat, exp := payload.exp }
  | .error e =>
    let msg := ctx.joseMsg e
    if includesSubstr msg "expired" then .error (unauthorizedError "Access token has expired")
    else if includesSubstr msg "signature" then .error (unauthorizedError "Invalid access token")
    else .error (unauthorizedError "Invalid access token")

/-- `verifyAccessToken` on a structured token (signature, issuer, audience and
expiry checks against the access secret, then the claim-shape checks). -/
def verifyAccessToken (ctx : Ctx) (token : SignedToken) (now : Int) :
    Except AppErrorE AccessClaims :=
  verifyAccessTokenCore ctx
    (jwtVerify token ctx.env.JWT_ACCESS_SECRET "InventoryFlow" "InventoryFlow-users" now)

/-- `verifyAccessToken` on the wire string, as called by the middleware. -/
def verifyAccessTokenStr (ctx : Ctx) (token : String) (now : Int) :
    Except AppErrorE AccessClaims :=
  verifyAccessTokenCore ctx
    (match ctx.decode token with
     | none => .error .malformed
     | some t => jwtVerify t ctx.env.JWT_ACCESS_SECRET "InventoryFlow" "InventoryFlow-users" now)

/-- Shared body of `verifyRefreshToken`. -/
def verifyRefreshTokenCore (ctx : Ctx) (r : Except JoseError Payload) :
    Except AppErrorE RefreshClaims :=
  match r with
  | .ok payload =>
    if !(truthy payload.userId) || payload.type ≠ some "refresh" then
      .error (unauthorizedError "Invalid refresh token")
    else
      .ok { userId := payload.userId.getD "", iat := payload.iat, exp := payload.exp }
  | .error e =>
    let msg := ctx.joseMsg e
    if includesSubstr msg "expired" then .error (unauthorizedError "Refresh token has expired")
    else if includesSubstr msg "signature" then .error (unauthorizedError "Invalid refresh token")
    else .error (unauthorizedError "Invalid refresh token")

/-- `verifyRefreshToken` on a structured token. -/
def verifyRefreshToken (ctx : Ctx) (token : SignedToken) (now : Int) :
    Except AppErrorE RefreshClaims :=
  verifyRefreshTokenCore ctx
    (jwtVerify token ctx.env.JWT_REFRESH_SECRET "InventoryFlow" "InventoryFlow-users" now)

/-- `verifyRefreshToken` on the wire string, as called by `refreshTokens`. -/
def verifyRefreshTokenStr (ctx : Ctx) (token : String) (now : Int) :
    Except AppErrorE RefreshClaims :=
  verifyRefreshTokenCore ctx
    (match ctx.decode token with
     | none => .error .malformed
     | some t => jwtVerify t ctx.env.JWT_REFRESH_SECRET "InventoryFlow" "InventoryFlow-users" now)

/-- `extractTokenFromHeader`: requires the "Bearer " scheme, trims the rest,
rejects an empty remainder. -/
def extractTokenFromHeader (authHeader : Option String) : Option String :=
  match authHeader with
  | none => none
  | some h =>
    if h == "" then none
    else if !(strStartsWith h "Bearer ") then none
    else
      let token := strTrim (strDrop h 7)
      if strLength token > 0 then some token else none

/-- The argon2-backed password utilities of src/utils/password.ts, abstracted
as an oracle: `verify` is `verifyPassword` (returns a Bool, never throws),
`rehashNeeded` is `needsRehash`, `hash` is `hashPassword` (may throw
`Error("Failed to hash password")`). -/
structure HashOracle where
  verify : String → String → Bool
  rehashNeeded : String → Bool
  hash : String → Except AppErrorE String

/-- Trace of the externally observable crypto invocations a service call makes. -/
inductive AuthEvent where
  | verifyPasswordCalled
  | hashPasswordCalled
  deriving DecidableEq, Repr

/-- `UserService.findUserByIdentifier`: Prisma findFirst with
`where: { isActive: true, OR: [{ email }, { username }] }`; the try/catch maps a
rejected lookup (`dbFail`) to null. -/
def findUserByIdentifier (db : List User) (dbFail : Bool) (identifier : String) :
    Option User :=
  if dbFail then none
  else db.find? (fun u => u.isActive && (u.email == identifier || u.username == identifier))

/-- `UserService.findUserById`: Prisma findFirst with
`where: { id: userId, isActive: true }`; the try/catch maps a rejected lookup to
null as well. -/
def findUserById (db : List User) (dbFail : Bool) (userId : String) : Option User :=
  if dbFail then none
  else db.find? (fun u => u.id == userId && u.isActive)

/-- Result of a login or refresh call. The tokens are carried in structured
form (their compact serialization is outside the model). -/
structure LoginResponse where
  accessToken : SignedToken
  refreshToken : SignedToken
  user : UserWithoutPassword
  deriving DecidableEq, Repr

/-- `UserService.authenticateUser` at fixed current time and fresh jtis.
Control flow of the source: identifier lookup, null check, isActive check,
password verification, optional rehash (failures swallowed), then token
issuance.  The lastLoginAt update and the login audit write do not influence
the returned value (the audit writer swallows its own failures).  The second
component records which crypto operations ran. -/
def authenticateUser (ctx : Ctx) (db : List User) (dbFail : Bool) (oracle : HashOracle)
    (now : Int) (jtiA jtiR : String) (data : LoginDTO) :
    Except AppErrorE LoginResponse × List AuthEvent :=
  match findUserByIdentifier db dbFail data.identifier with
  | none => (.error (unauthorizedError "Invalid credentials provided"), [])
  | some user =>
    if !user.isActive then
      (.error (unauthorizedError "Your account is deactivated"), [])
    else if !(oracle.verify data.password user.password) then
      (.error (unauthorizedError "Invalid credentials provided"), [.verifyPasswordCalled])
    else
      let events :=
        if oracle.rehashNeeded user.password then
          [AuthEvent.verifyPasswordCalled, AuthEvent.hashPasswordCalled]
        else [AuthEvent.verifyPasswordCalled]
      match generateAccessToken ctx.env now jtiA user.id user.email user.role.name with
      | .error e => (.error e, events)
      | .ok access =>
        match generateRefreshToken ctx.env now jtiR user.id with
        | .error e => (.error e, events)
        | .ok refresh =>
          (.ok { accessToken := access, refreshToken := refresh,
                 user := stripPassword user }, events)

/-- `UserService.createUser`: email uniqueness check, then username uniqueness
check, then password hashing, then creation.  `assignedRole` is the role row
referenced by `data.roleId`; `createFail` models a rejected Prisma create,
which the try/catch converts to `AppError("Failed to create user account")`.
The uniqueness lookups are findUnique on the respective unique columns. -/
def createUser (db : List User) (oracle : HashOracle) (assignedRole : Role)
    (newId : String) (createFail : Bool) (data : RegisterDTO) :
    Except AppErrorE UserWithoutPassword × List AuthEvent :=
  match db.find? (fun u => u.email == data.email) with
  | some _ => (.error (conflictError "Email address is already registered"), [])
  | none =>
    match db.find? (fun u => u.username == data.username) with
    | some _ => (.error (conflictError "Username is already taken"), [])
    | none =>
      match oracle.hash data.password with
      | .error e => (.error e, [.hashPasswordCalled])
      | .ok hashed =>
        if createFail then
          (.error (appErrorDefault "Failed to create user account"), [.hashPasswordCalled])
        else
          (.ok (stripPassword
                 { id := newId, email := data.email, username := data.username,
                   firstName := data.firstName, lastName := data.lastName,
                   password := hashed, isActive := true, roleId := data.roleId,
                   role := assignedRole }), [.hashPasswordCalled])

/-- `UserService.refreshTokens`: verify the refresh token, re-resolve the user
by id, reject a missing or inactive user, then issue a fresh access token
(note: with `user.roleId` as the role argument) and a fresh refresh token. -/
def refreshTokens (ctx : Ctx) (db : List User) (dbFail : Bool) (now : Int)
    (jtiA jtiR : String) (refreshToken : String) :
    Except AppErrorE LoginResponse :=
  match verifyRefreshTokenStr ctx refreshToken now with
  | .error e => .error e
  | .ok claims =>
    match findUserById db dbFail claims.userId with
    | none => .error (unauthorizedError "User not found or account deactivated")
    | some user =>
      if !user.isActive then
        .error (unauthorizedError "User not found or account deactivated")
      else
        match generateAccessToken ctx.env now jtiA user.id user.email user.roleId with
        | .error e => .error e
        | .ok access =>
          match generateRefreshToken ctx.env now jtiR user.id with
          | .error e => .error e
          | .ok refresh =>
            .ok { accessToken := access, refreshToken := refresh,
                  user := stripPassword user }

/-- Outcome of a middleware invocation: pass control on with the resolved user,
pass control on unchanged, or answer with an HTTP status and message body. -/
inductive MwResult where
  | nextWith (user : User)
  | next
  | respond (status : Nat) (message : String)
  deriving DecidableEq, Repr

/-- `AuthMiddleware.requireAuth`: missing token answers 401; a token that fails
verification throws, is caught by the surrounding catch, and answers 500 with
the thrown message; a verified token whose user lookup yields null answers 401
"User not found"; otherwise the user is attached and control passes on. -/
def requireAuth (ctx : Ctx) (db : List User) (dbFail : Bool) (now : Int)
    (authHeader : Option String) : MwResult :=
  match extractTokenFromHeader authHeader with
  | none => .respond 401 "Missing authorization token"
  | some tokenStr =>
    match verifyAccessTokenStr ctx tokenStr now with
    | .error e => .respond 500 e.message
    | .ok payload =>
      match findUserById db dbFail payload.userId with
      | none => .respond 401 "User not found"
      | some user => .nextWith user

/-- The ASCII apostrophe (code point 39), written via its code so the file
carries no bare quote characters. -/
def apostrophe : String := (Char.ofNat 39).toString

/-- Prefix of the permission-denied message body. -/
def permissionDeniedMsgPrefix : String :=
  "You don" ++ apostrophe ++ "t have permission to "

/-- `AuthMiddleware.requirePermission(requiredPermission)` applied to the
(optional) user attached by requireAuth.  The failure message lowercases the
tag and replaces the first underscore with a space
(`requiredPermission.toLowerCase().replace("_", " ")`). -/
def requirePermission (requiredPermission : String) (user : Option User) : MwResult :=
  match user with
  | none => .respond 401 "User not found"
  | some u =>
    if u.role.permissions.any (fun p => p.permission == requiredPermission) then .next
    else
      .respond 403
        (permissionDeniedMsgPrefix ++ jsReplaceFirst (strToLower requiredPermission) "_" " ")

/-! Concrete fixtures used by witnesses and counterexamples. -/

/-- A parsed environment with the default TTLs and two distinct secrets. -/
def defaultEnv : Env :=
  { ACCESS_TOKEN_EXPIRY := "15m", REFRESH_TOKEN_EXPIRY := "7d",
    JWT_ACCESS_SECRET := "test-access-secret",
    JWT_REFRESH_SECRET := "test-refresh-secret", NODE_ENV := "development" }

/-- The messages the jose library attaches to each failure kind (fixed here so
closed computations are possible; the verified middleware statements that
matter quantify over arbitrary message functions). -/
def joseMsgFixture : JoseError → String
  | .malformed => "Invalid Compact JWS"
  | .signatureInvalid => "signature verification failed"
  | .claimInvalid => "unexpected claim value"
  | .expired => "claim timestamp check failed"

/-- Role fixture. -/
def adminRole : Role :=
  { id := "role-1", name := "Admin", permissions := [{ permission := "USERS_VIEW" }] }

/-- An active user fixture. -/
def alice : User :=
  { id := "u1", email := "alice@example.com", username := "alice",
    firstName := "Alice", lastName := "Anders", password := "argon2-hash-1",
    isActive := true, roleId := "role-1", role := adminRole }

/-- A deactivated user fixture. -/
def inactiveBob : User :=
  { id := "u2", email := "inactive@example.com", username := "bob",
    firstName := "Bob", lastName := "Brown", password := "argon2-hash-2",
    isActive := false, roleId := "role-1", role := adminRole }

/-- A refresh token for `alice`, signed with the refresh secret, expiring at
second 2000. -/
def refreshTokFixture : SignedToken :=
  { payload := { userId := some "u1", jti := some "jr0", type := some "refresh",
                 iat := some 500, exp := some 2000,
                 iss := some "InventoryFlow", aud := some "InventoryFlow-users" },
    key := "test-refresh-secret" }

/-- An access-shaped token signed with a key that is neither configured secret. -/
def badSigTokFixture : SignedToken :=
  { payload := { userId := some "u1", email := some "alice@example.com",
                 role := some "Admin", type := some "access", iat := some 500,
                 exp := some 2000, iss := some "InventoryFlow",
                 aud := some "InventoryFlow-users" },
    key := "some-other-secret" }

/-- An access token for `alice` signed with the access secret, expiring at
second 2000. -/
def accessTokFixture : SignedToken :=
  { payload := { userId := some "u1", email := some "alice@example.com",
                 role := some "Admin", jti := some "jx", type := some "access",
                 iat := some 500, exp := some 2000, iss := some "InventoryFlow",
                 aud := some "InventoryFlow-users" },
    key := "test-access-secret" }

/-- A refresh-shaped token signed with the access secret (claim shape matches
the refresh verifier, signature does not). -/
def accessKeyedRefreshShapedTok : SignedToken :=
  { payload := refreshTokFixture.payload, key := "test-access-secret" }

/-- Wire decoding fixture: three known compact strings, everything else is not
a well-formed JWS. -/
def decodeFixture : String → Option SignedToken := fun s =>
  if s == "good-refresh" then some refreshTokFixture
  else if s == "good-access" then some accessTokFixture
  else if s == "bad-sig" then some badSigTokFixture
  else none

/-- Default context fixture. -/
def defaultCtx : Ctx :=
  { env := defaultEnv, joseMsg := joseMsgFixture, decode := decodeFixture }

/-- A hashing oracle whose verification always returns `b` and that never asks
for a rehash. -/
def oracleAlways (b : Bool) : HashOracle :=
  { verify := fun _ _ => b, rehashNeeded := fun _ => false,
    hash := fun p => .ok ("hashed:" ++ p) }

/-! Helper lemmas. -/

/-- The status code of a failing call, `none` on success. -/
def exceptStatus {α : Type} : Except AppErrorE α → Option Nat
  | .error e => some e.statusCode
  | .ok _ => none

/-- A user produced by the identifier lookup is active: the translated
where-clause conjoins `isActive`. -/
theorem findUserByIdentifier_isActive {db : List User} {dbFail : Bool}
    {identifier : String} {u : User}
    (h : findUserByIdentifier db dbFail identifier = some u) : u.isActive = true := by
  unfold findUserByIdentifier at h
  by_cases hf : dbFail = true
  · simp [hf] at h
  · simp [hf] at h
    have := List.find?_some h
    exact (Bool.and_eq_true _ _).mp this |>.1

/-- The role claim of a successfully generated access token is the role
argument. -/
theorem generateAccessToken_role {env : Env} {now : Int} {jti u e r : String}
    {tok : SignedToken} (h : generateAccessToken env now jti u e r = .ok tok) :
    tok.payload.role = some r := by
  unfold generateAccessToken at h
  cases hp : parseExpiry env.ACCESS_TOKEN_EXPIRY with
  | error err => rw [hp] at h; exact absurd h (by simp)
  | ok d => rw [hp] at h; cases h; rfl

/-- The userId claim of a successfully generated access token. -/
theorem generateAccessToken_userId {env : Env} {now : Int} {jti u e r : String}
    {tok : SignedToken} (h : generateAccessToken env now jti u e r = .ok tok) :
    tok.payload.userId = some u := by
  unfold generateAccessToken at h
  cases hp : parseExpiry env.ACCESS_TOKEN_EXPIRY with
  | error err => rw [hp] at h; exact absurd h (by simp)
  | ok d => rw [hp] at h; cases h; rfl

/-- Inversion of a successful refresh: the refresh token verified, the user was
re-resolved by id, and the returned access token was generated with the user
id, email, and the roleId column as the role argument. -/
theorem refreshTokens_ok {ctx : Ctx} {db : List User} {dbFail : Bool} {now : Int}
    {jtiA jtiR rt : String} {resp : LoginResponse}
    (h : refreshTokens ctx db dbFail now jtiA jtiR rt = .ok resp) :
    ∃ user claims, verifyRefreshTokenStr ctx rt now = .ok claims ∧
      findUserById db dbFail claims.userId = some user ∧
      generateAccessToken ctx.env now jtiA user.id user.email user.roleId =
        .ok resp.accessToken ∧
      resp.user = stripPassword user := by
  unfold refreshTokens at h
  cases hv : verifyRefreshTokenStr ctx rt now with
  | error e => rw [hv] at h; exact absurd h (by simp)
  | ok claims =>
    rw [hv] at h; try dsimp only at h
    cases hf : findUserById db dbFail claims.userId with
    | none => rw [hf] at h; exact absurd h (by simp)
    | some user =>
      rw [hf] at h; try dsimp only at h
      cases hact : user.isActive with
      | false => rw [hact] at h; exact absurd h (by simp)
      | true =>
        rw [hact] at h
        simp only [Bool.not_true, Bool.false_eq_true, if_false] at h
        cases hga : generateAccessToken ctx.env now jtiA user.id user.email user.roleId with
        | error e => rw [hga] at h; exact absurd h (by simp)
        | ok access =>
          rw [hga] at h; try dsimp only at h
          cases hgr : generateRefreshToken ctx.env now jtiR user.id with
          | error e => rw [hgr] at h; exact absurd h (by simp)
          | ok refresh =>
            rw [hgr] at h; try dsimp only at h
            cases h
            exact ⟨user, claims, rfl, hf, hga, rfl⟩

/-- Inversion of a successful login: the identifier lookup resolved the user
and the returned access token was generated with the role NAME as the role
argument. -/
theorem authenticateUser_ok {ctx : Ctx} {db : List User} {dbFail : Bool}
    {oracle : HashOracle} {now : Int} {jtiA jtiR : String} {data : LoginDTO}
    {resp : LoginResponse}
    (h : (authenticateUser ctx db dbFail oracle now jtiA jtiR data).1 = .ok resp) :
    ∃ user, findUserByIdentifier db dbFail data.identifier = some user ∧
      generateAccessToken ctx.env now jtiA user.id user.email user.role.name =
        .ok resp.accessToken ∧
      resp.user = stripPassword user := by
  unfold authenticateUser at h
  cases hfind : findUserByIdentifier db dbFail data.identifier with
  | none => rw [hfind] at h; exact absurd h (by simp)
  | some user =>
    rw [hfind] at h; try dsimp only at h
    cases hact : user.isActive with
    | false => rw [hact] at h; exact absurd h (by simp)
    | true =>
      rw [hact] at h
      simp only [Bool.not_true, Bool.false_eq_true, if_false] at h
      cases hv : oracle.verify data.password user.password with
      | false => rw [hv] at h; exact absurd h (by simp)
      | true =>
        rw [hv] at h; try dsimp only at h
        simp only [Bool.not_true, Bool.false_eq_true, if_false] at h
        cases hga : generateAccessToken ctx.env now jtiA user.id user.email user.role.name with
        | error e => rw [hga] at h; exact absurd h (by simp)
        | ok access =>
          rw [hga] at h; try dsimp only at h
          cases hgr : generateRefreshToken ctx.env now jtiR user.id with
          | error e => rw [hgr] at h; exact absurd h (by simp)
          | ok refresh =>
            rw [hgr] at h; try dsimp only at h
            cases h
            exact ⟨user, rfl, hga, rfl⟩

/-! Claim theorems. -/

/-- C1: for a login attempt against a deactivated account, the code rejects
with the generic UnauthorizedError "Invalid credentials provided" rather than
the claimed "Your account is deactivated" (the identifier lookup filters on
isActive, so a deactivated account is never found and the dedicated
deactivation branch of authenticateUser is unreachable), and password
verification is never invoked (empty event trace).  This contradicts the
claim, the spec, and the repository unit test, which only passes because it
mocks findFirst without applying the where-clause. -/
theorem c1_deactivated_login_divergence :
    authenticateUser defaultCtx [inactiveBob] false (oracleAlways true) 1000 "ja" "jr"
        { identifier := "inactive@example.com", password := "AnyPassword123" } =
      (.error (unauthorizedError "Invalid credentials provided"), []) ∧
    (authenticateUser defaultCtx [inactiveBob] false (oracleAlways true) 1000 "ja" "jr"
        { identifier := "inactive@example.com", password := "AnyPassword123" }).1 ≠
      .error (unauthorizedError "Your account is deactivated") := by
  constructor
  · decide
  · decide

/-- C3: a login with an identifier that resolves to no user and a login whose
password verification fails both reject with UnauthorizedError carrying the
identical message "Invalid credentials provided" and the identical status code
401. -/
theorem c3_login_enumeration_resistance (ctx : Ctx) (db : List User) (dbFail : Bool)
    (oracle : HashOracle) (now : Int) (jtiA jtiR : String) (data : LoginDTO) :
    (findUserByIdentifier db dbFail data.identifier = none →
      (authenticateUser ctx db dbFail oracle now jtiA jtiR data).1 =
        .error (unauthorizedError "Invalid credentials provided")) ∧
    (∀ u, findUserByIdentifier db dbFail data.identifier = some u →
      oracle.verify data.password u.password = false →
      (authenticateUser ctx db dbFail oracle now jtiA jtiR data).1 =
        .error (unauthorizedError "Invalid credentials provided")) ∧
    (unauthorizedError "Invalid credentials provided").statusCode = 401 := by
  refine ⟨?_, ?_, rfl⟩
  · intro h
    simp [authenticateUser, h]
  · intro u hu hv
    have hact : u.isActive = true := findUserByIdentifier_isActive hu
    simp [authenticateUser, hu, hact, hv]

/-- C3 witness: with a one-user table, a ghost identifier and a wrong password
against the existing user produce the same error value. -/
theorem c3_login_enumeration_resistance_witness :
    (authenticateUser defaultCtx [alice] false (oracleAlways true) 1000 "ja" "jr"
        { identifier := "ghost@example.com", password := "Whatever123" }).1 =
      .error (unauthorizedError "Invalid credentials provided") ∧
    (authenticateUser defaultCtx [alice] false (oracleAlways false) 1000 "ja" "jr"
        { identifier := "alice@example.com", password := "WrongPass123" }).1 =
      .error (unauthorizedError "Invalid credentials provided") :=
  ⟨(c3_login_enumeration_resistance defaultCtx [alice] false (oracleAlways true)
      1000 "ja" "jr" { identifier := "ghost@example.com", password := "Whatever123" }).1
      (by decide),
   (c3_login_enumeration_resistance defaultCtx [alice] false (oracleAlways false)
      1000 "ja" "jr" { identifier := "alice@example.com", password := "WrongPass123" }).2.1
      alice (by decide) (by decide)⟩

/-- C5 counterexample: for required permission INVENTORY_ADJUST_STOCK, the 403
message renders the capability as "inventory adjust_stock" (only the first
underscore is replaced by `String.replace` with a string pattern), not the
claimed fully spaced "inventory adjust stock". -/
theorem c5_counterexample :
    requirePermission "INVENTORY_ADJUST_STOCK" (some alice) =
      .respond 403 (permissionDeniedMsgPrefix ++ "inventory adjust_stock") ∧
    permissionDeniedMsgPrefix ++ "inventory adjust_stock" ≠
      permissionDeniedMsgPrefix ++ "inventory adjust stock" := by
  constructor
  · decide
  · decide

/-- C5 amended: an authenticated request failing the permission check is
answered 403 with a message naming the missing capability as the tag
lowercased with only its FIRST separator replaced by a space. -/
theorem c5_permission_denied_message (required : String) (u : User)
    (h : u.role.permissions.any (fun p => p.permission == required) = false) :
    requirePermission required (some u) =
      .respond 403
        (permissionDeniedMsgPrefix ++ jsReplaceFirst (strToLower required) "_" " ") := by
  simp [requirePermission, h]

/-- C5 witness: the amended message shape at a concrete tag and user. -/
theorem c5_permission_denied_message_witness :
    requirePermission "USERS_DELETE" (some alice) =
      .respond 403
        (permissionDeniedMsgPrefix ++ jsReplaceFirst (strToLower "USERS_DELETE") "_" " ") :=
  c5_permission_denied_message "USERS_DELETE" alice (by decide)

/-- C2 counterexample: a request bearing a token whose signature does not
verify is answered with HTTP 500 (the catch-all of requireAuth maps the thrown
UnauthorizedError to INTERNAL_SERVER_ERROR), not the claimed 401. -/
theorem c2_counterexample :
    requireAuth defaultCtx [alice] false 1000 (some "Bearer bad-sig") =
      .respond 500 "Invalid access token" := by
  decide

/-- C2 amended: in required mode, a missing bearer token is answered 401
"Missing authorization token" and a verified token whose user lookup yields
null is answered 401 "User not found" (machine-distinguishable messages), but
a token failing verification (invalid or expired) is answered 500 carrying the
verification error message. -/
theorem c2_requireAuth_responses (ctx : Ctx) (db : List User) (dbFail : Bool)
    (now : Int) (hdr : Option String) :
    (extractTokenFromHeader hdr = none →
      requireAuth ctx db dbFail now hdr = .respond 401 "Missing authorization token") ∧
    (∀ s e, extractTokenFromHeader hdr = some s →
      verifyAccessTokenStr ctx s now = .error e →
      requireAuth ctx db dbFail now hdr = .respond 500 e.message) ∧
    (∀ s claims, extractTokenFromHeader hdr = some s →
      verifyAccessTokenStr ctx s now = .ok claims →
      findUserById db dbFail claims.userId = none →
      requireAuth ctx db dbFail now hdr = .respond 401 "User not found") := by
  refine ⟨?_, ?_, ?_⟩
  · intro h
    simp [requireAuth, h]
  · intro s e hs hv
    simp [requireAuth, hs, hv]
  · intro s claims hs hv hf
    simp [requireAuth, hs, hv, hf]

/-- C2 witness: concrete requests exercising all three amended responses. -/
theorem c2_requireAuth_responses_witness :
    requireAuth defaultCtx [alice] false 1000 none =
      .respond 401 "Missing authorization token" ∧
    requireAuth defaultCtx [alice] false 1000 (some "Bearer bad-sig") =
      .respond 500 (unauthorizedError "Invalid access token").message ∧
    requireAuth defaultCtx [] false 1000 (some "Bearer good-access") =
      .respond 401 "User not found" :=
  ⟨(c2_requireAuth_responses defaultCtx [alice] false 1000 none).1 (by decide),
   (c2_requireAuth_responses defaultCtx [alice] false 1000 (some "Bearer bad-sig")).2.1
     "bad-sig" (unauthorizedError "Invalid access token") (by decide) (by decide),
   (c2_requireAuth_responses defaultCtx [] false 1000 (some "Bearer good-access")).2.2
     "good-access"
     { userId := "u1", email := "alice@example.com", role := some "Admin",
       iat := some 500, exp := some 2000 }
     (by decide) (by decide) (by decide)⟩

/-- Last character of a string extended by a single character. -/
theorem strLast_append {v w : String} (h : w.data.length = 1) :
    strLast (v ++ w) = w := by
  unfold strLast
  rw [String.data_append, List.length_append, h]
  have : v.data.length + 1 - 1 = v.data.length := by omega
  rw [this, List.drop_left]

/-- Dropping the last character of a string extended by a single character. -/
theorem strDropLast_append {v w : String} (h : w.data.length = 1) :
    strDropLast (v ++ w) = v := by
  unfold strDropLast
  rw [String.data_append, List.length_append, h]
  have : v.data.length + 1 - 1 = v.data.length := by omega
  rw [this, List.take_left]

/-- C4 amended: the duration table is {d to 86400, h to 3600, m to 60, s to 1}
seconds as claimed, but an unsupported unit does NOT fail at startup: the env
schema accepts any string for ACCESS_TOKEN_EXPIRY, and the failure surfaces at
token-issuance time, when parseExpiry throws and generateAccessToken rethrows
"Failed to generate access token". -/
theorem c4_expiry_parsing (v s a r : String) (e : Env) (now : Int)
    (jti u em ro : String) :
    parseExpiry (v ++ "d") = .ok ((jsParseInt v).map (fun k => k * 86400)) ∧
    parseExpiry (v ++ "h") = .ok ((jsParseInt v).map (fun k => k * 3600)) ∧
    parseExpiry (v ++ "m") = .ok ((jsParseInt v).map (fun k => k * 60)) ∧
    parseExpiry (v ++ "s") = .ok (jsParseInt v) ∧
    envSchemaParse
        { ACCESS_TOKEN_EXPIRY := some s, REFRESH_TOKEN_EXPIRY := some "7d",
          JWT_ACCESS_SECRET := some a, JWT_REFRESH_SECRET := some r,
          NODE_ENV := some "development" } =
      .ok { ACCESS_TOKEN_EXPIRY := s, REFRESH_TOKEN_EXPIRY := "7d",
            JWT_ACCESS_SECRET := a, JWT_REFRESH_SECRET := r,
            NODE_ENV := "development" } ∧
    (strLast e.ACCESS_TOKEN_EXPIRY ∉ (["d", "h", "m", "s"] : List String) →
      generateAccessToken e now jti u em ro =
        .error (appErrorDefault "Failed to generate access token")) := by
  have h1 : ("d" : String).data.length = 1 := by decide
  have h2 : ("h" : String).data.length = 1 := by decide
  have h3 : ("m" : String).data.length = 1 := by decide
  have h4 : ("s" : String).data.length = 1 := by decide
  refine ⟨?_, ?_, ?_, ?_, ?_, ?_⟩
  · simp only [parseExpiry, strLast_append h1, strDropLast_append h1, if_pos rfl]
    cases jsParseInt v with
    | none => rfl
    | some k =>
      have hk : k * 60 * 60 * 24 = k * 86400 := by ring
      simp only [Option.map]
      rw [hk, if_pos trivial]
  · simp only [parseExpiry, strLast_append h2, strDropLast_append h2]
    rw [if_pos trivial]
    cases jsParseInt v with
    | none => rfl
    | some k =>
      have hk : k * 60 * 60 = k * 3600 := by ring
      simp only [Option.map]
      rw [hk, if_neg (by decide)]
  · simp only [parseExpiry, strLast_append h3, strDropLast_append h3]
    rw [if_neg (by decide), if_neg (by decide), if_pos trivial]
  · simp only [parseExpiry, strLast_append h4, strDropLast_append h4]
    rw [if_neg (by decide), if_neg (by decide), if_neg (by decide), if_pos trivial]
  · simp [envSchemaParse]
  · intro hbad
    have hd : strLast e.ACCESS_TOKEN_EXPIRY ≠ "d" := by
      intro hh; exact hbad (by simp [hh])
    have hh : strLast e.ACCESS_TOKEN_EXPIRY ≠ "h" := by
      intro hh; exact hbad (by simp [hh])
    have hm : strLast e.ACCESS_TOKEN_EXPIRY ≠ "m" := by
      intro hh; exact hbad (by simp [hh])
    have hs : strLast e.ACCESS_TOKEN_EXPIRY ≠ "s" := by
      intro hh; exact hbad (by simp [hh])
    simp [generateAccessToken, parseExpiry, hd, hh, hm, hs]

/-- C4 witness: the unit table at concrete strings, and a concrete environment
with TTL "20q" whose failure only appears when a token is generated. -/
theorem c4_expiry_parsing_witness :
    parseExpiry ("15" ++ "d") = .ok ((jsParseInt "15").map (fun k => k * 86400)) ∧
    generateAccessToken
        { ACCESS_TOKEN_EXPIRY := "20q", REFRESH_TOKEN_EXPIRY := "7d",
          JWT_ACCESS_SECRET := "ka", JWT_REFRESH_SECRET := "kr",
          NODE_ENV := "development" } 1000 "j" "u1" "a@x.com" "Admin" =
      .error (appErrorDefault "Failed to generate access token") :=
  ⟨(c4_expiry_parsing "15" "x" "ka" "kr"
      { ACCESS_TOKEN_EXPIRY := "20q", REFRESH_TOKEN_EXPIRY := "7d",
        JWT_ACCESS_SECRET := "ka", JWT_REFRESH_SECRET := "kr",
        NODE_ENV := "development" } 1000 "j" "u1" "a@x.com" "Admin").1,
   (c4_expiry_parsing "15" "x" "ka" "kr"
      { ACCESS_TOKEN_EXPIRY := "20q", REFRESH_TOKEN_EXPIRY := "7d",
        JWT_ACCESS_SECRET := "ka", JWT_REFRESH_SECRET := "kr",
        NODE_ENV := "development" } 1000 "j" "u1" "a@x.com" "Admin").2.2.2.2.2
      (by decide)⟩

/-- C4 counterexample: the environment schema accepts ACCESS_TOKEN_EXPIRY
"15x" at startup (no format validation), and the configuration error instead
surfaces when generateAccessToken is first called — the opposite of the
claimed "at startup, not at token-issuance time". -/
theorem c4_counterexample :
    envSchemaParse
        { ACCESS_TOKEN_EXPIRY := some "15x", REFRESH_TOKEN_EXPIRY := some "7d",
          JWT_ACCESS_SECRET := some "sa", JWT_REFRESH_SECRET := some "sr",
          NODE_ENV := some "development" } =
      .ok { ACCESS_TOKEN_EXPIRY := "15x", REFRESH_TOKEN_EXPIRY := "7d",
            JWT_ACCESS_SECRET := "sa", JWT_REFRESH_SECRET := "sr",
            NODE_ENV := "development" } ∧
    generateAccessToken
        { ACCESS_TOKEN_EXPIRY := "15x", REFRESH_TOKEN_EXPIRY := "7d",
          JWT_ACCESS_SECRET := "sa", JWT_REFRESH_SECRET := "sr",
          NODE_ENV := "development" } 1000 "j" "u1" "a@x.com" "Admin" =
      .error (appErrorDefault "Failed to generate access token") := by
  constructor
  · decide
  · decide

/-- C6 counterexample: at userId "" the claimed round-trip fails — issuance
succeeds but verification rejects the fresh token, because the required-claim
check uses JS truthiness and the empty string is falsy. -/
theorem c6_counterexample :
    (generateAccessToken defaultEnv 1000 "j0" "" "a@x.com" "Admin").map
        (fun tok => verifyAccessToken defaultCtx tok 1000) =
      .ok (.error (unauthorizedError "Invalid access token")) := by
  decide

/-- C6 amended: for every NONEMPTY userId and email and any role, provided the
configured access TTL parses to a positive duration (as the default "15m"
does), verifying the freshly issued access token succeeds with the original
userId and email and an expiry strictly after issuance time. -/
theorem c6_roundtrip (ctx : Ctx) (now : Int) (jti u e r : String) (d : Int)
    (hu : u ≠ "") (he : e ≠ "")
    (hp : parseExpiry ctx.env.ACCESS_TOKEN_EXPIRY = .ok (some d)) (hd : 0 < d) :
    (generateAccessToken ctx.env now jti u e r).map
        (fun tok => verifyAccessToken ctx tok now) =
      .ok (.ok { userId := u, email := e, role := some r,
                 iat := some now, exp := some (now + d) }) ∧
    now < now + d := by
  constructor
  · unfold generateAccessToken
    rw [hp]
    have h1 : ¬ (now + d ≤ now) := by omega
    simp [Except.map, verifyAccessToken, verifyAccessTokenCore, jwtVerify, truthy,
      beq_iff_eq, hu, he, h1]
  · omega

/-- C6 witness: the amended round-trip at concrete values under the default
environment. -/
theorem c6_roundtrip_witness :
    (generateAccessToken defaultCtx.env 1000 "j1" "u1" "a@x.com" "Admin").map
        (fun tok => verifyAccessToken defaultCtx tok 1000) =
      .ok (.ok { userId := "u1", email := "a@x.com", role := some "Admin",
                 iat := some 1000, exp := some (1000 + 900) }) ∧
    (1000 : Int) < 1000 + 900 :=
  c6_roundtrip defaultCtx 1000 "j1" "u1" "a@x.com" "Admin" 900 (by decide) (by decide)
    (by decide) (by decide)

/-- Whatever jose failure occurs, the refresh verifier maps it to a 401
UnauthorizedError. -/
theorem verifyRefreshTokenCore_error_status (ctx : Ctx) (e : JoseError) :
    exceptStatus (verifyRefreshTokenCore ctx (.error e)) = some 401 := by
  unfold verifyRefreshTokenCore
  dsimp only
  split
  · rfl
  · split
    · rfl
    · rfl

/-- Whatever jose failure occurs, the access verifier maps it to a 401
UnauthorizedError. -/
theorem verifyAccessTokenCore_error_status (ctx : Ctx) (e : JoseError) :
    exceptStatus (verifyAccessTokenCore ctx (.error e)) = some 401 := by
  unfold verifyAccessTokenCore
  dsimp only
  split
  · rfl
  · split
    · rfl
    · rfl

/-- C7: with distinct configured secrets, any token signed with the
access-token secret fails refresh verification with a 401 error, whatever its
claim shape, and symmetrically any token signed with the refresh-token secret
fails access verification. -/
theorem c7_cross_secret_rejection (ctx : Ctx) (t : SignedToken) (now : Int)
    (hsec : ctx.env.JWT_ACCESS_SECRET ≠ ctx.env.JWT_REFRESH_SECRET) :
    (t.key = ctx.env.JWT_ACCESS_SECRET →
      exceptStatus (verifyRefreshToken ctx t now) = some 401) ∧
    (t.key = ctx.env.JWT_REFRESH_SECRET →
      exceptStatus (verifyAccessToken ctx t now) = some 401) := by
  constructor
  · intro hk
    have hne : t.key ≠ ctx.env.JWT_REFRESH_SECRET := by rw [hk]; exact hsec
    have hjv : jwtVerify t ctx.env.JWT_REFRESH_SECRET "InventoryFlow"
        "InventoryFlow-users" now = .error .signatureInvalid := by
      unfold jwtVerify
      rw [if_pos hne]
    unfold verifyRefreshToken
    rw [hjv]
    exact verifyRefreshTokenCore_error_status ctx .signatureInvalid
  · intro hk
    have hne : t.key ≠ ctx.env.JWT_ACCESS_SECRET := by
      rw [hk]; exact fun hh => hsec hh.symm
    have hjv : jwtVerify t ctx.env.JWT_ACCESS_SECRET "InventoryFlow"
        "InventoryFlow-users" now = .error .signatureInvalid := by
      unfold jwtVerify
      rw [if_pos hne]
    unfold verifyAccessToken
    rw [hjv]
    exact verifyAccessTokenCore_error_status ctx .signatureInvalid

/-- C7 witness: a refresh-shaped token signed with the access secret is
rejected by the refresh verifier, and the genuine refresh-keyed token is
rejected by the access verifier, under the default (distinct) secrets. -/
theorem c7_cross_secret_rejection_witness :
    exceptStatus (verifyRefreshToken defaultCtx accessKeyedRefreshShapedTok 1000) =
      some 401 ∧
    exceptStatus (verifyAccessToken defaultCtx refreshTokFixture 1000) = some 401 :=
  ⟨(c7_cross_secret_rejection defaultCtx accessKeyedRefreshShapedTok 1000
      (by decide)).1 rfl,
   (c7_cross_secret_rejection defaultCtx refreshTokFixture 1000 (by decide)).2 rfl⟩

/-- C8: a registration whose email is already present conflicts with
"Email address is already registered" before any hashing (empty event trace),
and one with a fresh email but taken username conflicts with the distinct
"Username is already taken", also before hashing. -/
theorem c8_registration_conflicts (db : List User) (oracle : HashOracle)
    (role : Role) (newId : String) (createFail : Bool) (data : RegisterDTO) :
    ((db.find? (fun u => u.email == data.email)).isSome →
      createUser db oracle role newId createFail data =
        (.error (conflictError "Email address is already registered"), [])) ∧
    (db.find? (fun u => u.email == data.email) = none →
      (db.find? (fun u => u.username == data.username)).isSome →
      createUser db oracle role newId createFail data =
        (.error (conflictError "Username is already taken"), [])) := by
  constructor
  · intro h
    obtain ⟨u, hu⟩ := Option.isSome_iff_exists.mp h
    simp [createUser, hu]
  · intro h1 h2
    obtain ⟨u, hu⟩ := Option.isSome_iff_exists.mp h2
    simp [createUser, h1, hu]

/-- C8 witness: both conflicts at concrete registrations against a one-user
table. -/
theorem c8_registration_conflicts_witness :
    createUser [alice] (oracleAlways true) adminRole "new-id" false
        { email := "alice@example.com", firstName := "New", lastName := "Person",
          password := "Secure123", roleId := "role-1", username := "fresh" } =
      (.error (conflictError "Email address is already registered"), []) ∧
    createUser [alice] (oracleAlways true) adminRole "new-id" false
        { email := "fresh@example.com", firstName := "New", lastName := "Person",
          password := "Secure123", roleId := "role-1", username := "alice" } =
      (.error (conflictError "Username is already taken"), []) :=
  ⟨(c8_registration_conflicts [alice] (oracleAlways true) adminRole "new-id" false
      { email := "alice@example.com", firstName := "New", lastName := "Person",
        password := "Secure123", roleId := "role-1", username := "fresh" }).1
      (by decide),
   (c8_registration_conflicts [alice] (oracleAlways true) adminRole "new-id" false
      { email := "fresh@example.com", firstName := "New", lastName := "Person",
        password := "Secure123", roleId := "role-1", username := "alice" }).2
      (by decide) (by decide)⟩

/-- C9: a successful refresh embeds the roleId column as the role claim of the
new access token, a successful login embeds the role NAME, and whenever a role
id differs from the role name the two issuance paths give the same user access
tokens with different role claims. -/
theorem c9_role_claim_source_mismatch (ctx : Ctx) (db : List User)
    (dbFailR dbFailL : Bool) (oracle : HashOracle) (nowR nowL : Int)
    (jA jR jA2 jR2 rt : String) (data : LoginDTO) (respR respL : LoginResponse)
    (hR : refreshTokens ctx db dbFailR nowR jA jR rt = .ok respR)
    (hL : (authenticateUser ctx db dbFailL oracle nowL jA2 jR2 data).1 = .ok respL) :
    respR.accessToken.payload.role = some respR.user.roleId ∧
    respL.accessToken.payload.role = some respL.user.role.name ∧
    (respR.user = respL.user → respR.user.roleId ≠ respR.user.role.name →
      respR.accessToken.payload.role ≠ respL.accessToken.payload.role) := by
  obtain ⟨uR, claims, hv, hf, hgaR, huR⟩ := refreshTokens_ok hR
  obtain ⟨uL, hfindL, hgaL, huL⟩ := authenticateUser_ok hL
  have h1 : respR.accessToken.payload.role = some uR.roleId :=
    generateAccessToken_role hgaR
  have h2 : respL.accessToken.payload.role = some uL.role.name :=
    generateAccessToken_role hgaL
  have hr1 : respR.user.roleId = uR.roleId := by rw [huR]; rfl
  have hr2 : respL.user.role.name = uL.role.name := by rw [huL]; rfl
  refine ⟨by rw [h1, hr1], by rw [h2, hr2], ?_⟩
  intro hsame hne
  rw [h1, h2, ← hr1, ← hr2, ← hsame]
  exact fun hc => hne (Option.some.inj hc)

/-- Result of the concrete refresh run used by the C9 witness. -/
def rRespFixture : LoginResponse :=
  { accessToken :=
      { payload := { userId := some "u1", email := some "alice@example.com",
                     role := some "role-1", jti := some "ja", type := some "access",
                     iat := some 1000, exp := some 1900,
                     iss := some "InventoryFlow", aud := some "InventoryFlow-users" },
        key := "test-access-secret" },
    refreshToken :=
      { payload := { userId := some "u1", jti := some "jr", type := some "refresh",
                     iat := some 1000, exp := some 605800,
                     iss := some "InventoryFlow", aud := some "InventoryFlow-users" },
        key := "test-refresh-secret" },
    user := stripPassword alice }

/-- Result of the concrete login run used by the C9 witness. -/
def lRespFixture : LoginResponse :=
  { accessToken :=
      { payload := { userId := some "u1", email := some "alice@example.com",
                     role := some "Admin", jti := some "ja2", type := some "access",
                     iat := some 1000, exp := some 1900,
                     iss := some "InventoryFlow", aud := some "InventoryFlow-users" },
        key := "test-access-secret" },
    refreshToken :=
      { payload := { userId := some "u1", jti := some "jr2", type := some "refresh",
                     iat := some 1000, exp := some 605800,
                     iss := some "InventoryFlow", aud := some "InventoryFlow-users" },
        key := "test-refresh-secret" },
    user := stripPassword alice }

/-- C9 witness: a concrete successful refresh and login for alice, whose role
id "role-1" differs from the role name "Admin", yield access tokens with the
two different role claims. -/
theorem c9_role_claim_source_mismatch_witness :
    rRespFixture.accessToken.payload.role = some rRespFixture.user.roleId ∧
    lRespFixture.accessToken.payload.role = some lRespFixture.user.role.name ∧
    (rRespFixture.user = lRespFixture.user →
      rRespFixture.user.roleId ≠ rRespFixture.user.role.name →
      rRespFixture.accessToken.payload.role ≠ lRespFixture.accessToken.payload.role) :=
  c9_role_claim_source_mismatch defaultCtx [alice] false false (oracleAlways true)
    1000 1000 "ja" "jr" "ja2" "jr2" "good-refresh"
    { identifier := "alice", password := "Whatever123" } rRespFixture lRespFixture
    (by decide) (by decide)

/-- C10: findUserById is total — a failed persistence lookup and an absent or
inactive user alike give null (no throw), and requireAuth answers a verified
token whose lookup failed with 401 "User not found" rather than an internal
error. -/
theorem c10_findUserById_total (ctx : Ctx) (db : List User) (uid : String)
    (now : Int) (hdr : Option String) :
    findUserById db true uid = none ∧
    findUserById db false uid = db.find? (fun u => u.id == uid && u.isActive) ∧
    (∀ s claims, extractTokenFromHeader hdr = some s →
      verifyAccessTokenStr ctx s now = .ok claims →
      requireAuth ctx db true now hdr = .respond 401 "User not found") := by
  refine ⟨rfl, rfl, ?_⟩
  intro s claims hs hv
  simp [requireAuth, hs, hv, findUserById]

/-- C10 witness: with the persistence layer failing, a request with a valid
access token is answered 401 "User not found". -/
theorem c10_findUserById_total_witness :
    findUserById [alice] true "u1" = none ∧
    requireAuth defaultCtx [alice] true 1000 (some "Bearer good-access") =
      .respond 401 "User not found" :=
  ⟨(c10_findUserById_total defaultCtx [alice] "u1" 1000
      (some "Bearer good-access")).1,
   (c10_findUserById_total defaultCtx [alice] "u1" 1000
      (some "Bearer good-access")).2.2 "good-access"
     { userId := "u1", email := "alice@example.com", role := some "Admin",
       iat := some 500, exp := some 2000 }
     (by decide) (by decide)⟩

end InventoryFlow
